import Mathlib

/-!
# Shallow embedding of the `auth-sdk` AuthManager

This file embeds the session-propagation core of the client-side auth SDK:
the `AuthManager` class of the full variant (the built `dist/index.js`,
whose methods carry expiry, cookies, and the URL/postMessage hand-off codec)
together with the subscriber machinery shared with the minimal
`src/index.ts` variant.

Modelling conventions:
* Browser storage (localStorage, sessionStorage, the cookie jar) is carried
  as explicit `Option String` fields of the `State`; `none` is an absent
  key, `some ""` an empty string (JS-falsy).
* JS truthiness on strings (`null` and `""` falsy) is `strFalsy`; the JS
  `||` fallback on storage reads is `strOr`.
* `JSON.stringify` / `JSON.parse` and `Number.prototype.toString` /
  `parseInt` are browser builtins external to the repository; they are
  carried as a `Codec` parameter (a print/parse pair for the subject and
  for decimal timestamps).  A `JSON.parse` throw is the `none` result of
  `parseUser`, landed in the same branch the source's `catch` lands in.
* `URL` / `URLSearchParams` manipulation is embedded structurally: a `Url`
  is a base plus an association list of query parameters, with
  `URLSearchParams.set` / `get` / `delete` semantics reproduced on the list
  (percent-encoding of the serialized URL string is the browser's, and is
  bijective, so the structural view is faithful).
* Subscriber callbacks are modelled by the effect the claims exercise: a
  `Listener` has a reference identity `id` and a list `unsubs` of
  reference identities it de-registers when invoked (the returned
  de-registration handle runs `listeners.filter (l ≠ callback)`, a
  reassignment to a fresh array).  `notify` reproduces
  `this.listeners.forEach(cb => cb(this.user))`: iteration runs over the
  array snapshot taken at call time, while handles reassign the field.
* Time is an explicit `now : Nat` argument (milliseconds), standing for
  `Date.now()`.
* Outbound cross-context traffic (`window.postMessage`, `BroadcastChannel`
  posts) is collected in an `Outbound` list; the subscriber invocations are
  collected in a `(reference id × delivered user)` log.
-/

namespace AuthSdk

/-- The caller-supplied subject record (`interface User` in `src/index.ts`):
id, name, email, optional role. -/
structure User where
  id : String
  name : String
  email : String
  role : Option String
deriving DecidableEq, Repr

/-- The constructor configuration fields the embedded operations consult:
`crossOriginEnabled` (default true) and `tokenExpiry` in milliseconds
(default 24h; the source reads it as `this.config.tokenExpiry || 0`). -/
structure Config where
  crossOriginEnabled : Bool
  tokenExpiry : Nat
deriving DecidableEq, Repr

/-- A registered subscriber callback: `id` is its reference identity
(JS object identity of the function), `unsubs` the reference identities
whose de-registration handles it invokes during its own callback. -/
structure Listener where
  id : Nat
  unsubs : List Nat
deriving DecidableEq, Repr

/-- Browser builtins used by the class but external to the repository:
`JSON.stringify`/`JSON.parse` for the subject and decimal
`toString`/`parseInt` for timestamps.  `parseUser s = none` models a
`JSON.parse` throw; `parseNat s = none` models a NaN `parseInt` result
(NaN is falsy and fails every `<` comparison, so it is observationally
the same as the absent value in every use site below). -/
structure Codec where
  printUser : User → String
  parseUser : String → Option User
  printNat : Nat → String
  parseNat : String → Option Nat

/-- The mutable state of one `AuthManager` execution context: the
in-memory fields (`this.user`, `this.tokenExpiryTime`, `this.listeners`)
and the durable stores it reads and writes (localStorage keys
`auth:token`/`auth:user`/`auth:expiry`, sessionStorage keys
`auth:token`/`auth:user`, cookies `auth_token`/`auth_user`). -/
structure State where
  user : Option User
  tokenExpiryTime : Option Nat
  listeners : List Listener
  localToken : Option String
  localUser : Option String
  localExpiry : Option String
  sessionToken : Option String
  sessionUser : Option String
  cookieToken : Option String
  cookieUser : Option String
deriving DecidableEq, Repr

/-- A message posted to another context: `window.postMessage` envelopes
(`AUTH_LOGIN`/`AUTH_LOGOUT`, and the targeted `AUTH_SHARE` hand-off) and
`BroadcastChannel('auth:channel')` posts (`login`/`logout`). -/
inductive Outbound where
  | windowMsg (type : String) (user : Option User)
  | channelMsg (type : String) (user : Option User)
  | shareMsg (targetOrigin : String) (token : String) (user : User) (timestamp : Nat)
deriving DecidableEq, Repr

/-- JS string truthiness on a nullable string: `null` and `""` are falsy. -/
def strFalsy : Option String → Bool
  | none => true
  | some s => s = ""

/-- The JS `a || b` fallback on two nullable strings, as used on storage
reads (`getItem(...) || getItem(...)`, `cookieToken || localToken`). -/
def strOr (a b : Option String) : Option String :=
  if strFalsy a then b else a

/-- One pass of `notify()`'s `forEach` loop: `snapshot` is the array the
iteration was started on, `field` the current value of `this.listeners`.
Each invoked callback is logged with the delivered user and then runs its
de-registrations, each of which reassigns `this.listeners` to
`this.listeners.filter(l => l !== listener)`. -/
def notifyGo (user : Option User) :
    List Listener → List Listener → List Listener × List (Nat × Option User)
  | field, [] => (field, [])
  | field, l :: rest =>
      let field' := field.filter (fun l2 => l2.id ∉ l.unsubs)
      let (fin, log) := notifyGo user field' rest
      (fin, (l.id, user) :: log)

/-- `notify()`: `this.listeners.forEach(listener => listener(this.user))`.
Iterates over the snapshot of the listener array taken at call time (a
handle run mid-pass replaces the field with a fresh filtered array, so the
pass in progress is unaffected). -/
def notify (s : State) : State × List (Nat × Option User) :=
  ({ s with listeners := (notifyGo s.user s.listeners s.listeners).1 },
   (notifyGo s.user s.listeners s.listeners).2)

/-- ASCII uppercase of one character (`String.prototype.toUpperCase` on
the ASCII channel names used here). -/
def upperAscii (c : Char) : Char :=
  if 'a' ≤ c ∧ c ≤ 'z' then Char.ofNat (c.toNat - 32) else c

/-- ASCII uppercase of a string. -/
def strUpper (s : String) : String :=
  String.mk (s.data.map upperAscii)

/-- `broadcast(type, user)`: posts `{type: AUTH_<TYPE>, user}` on
`window.postMessage` and `{type, user}` on `BroadcastChannel`. -/
def broadcast (type : String) (user : Option User) : List Outbound :=
  [Outbound.windowMsg ("AUTH_" ++ strUpper type) user,
   Outbound.channelMsg type user]

/-- `login(user, token)` of the full variant: sets the in-memory session,
computes the expiry deadline `Date.now() + (tokenExpiry || 0)`, writes
localStorage and the cookies, notifies subscribers, broadcasts a login,
and finally writes sessionStorage. -/
def login (cfg : Config) (codec : Codec) (s : State) (u : User) (token : String)
    (now : Nat) : State × List (Nat × Option User) × List Outbound :=
  let expiry := now + cfg.tokenExpiry
  let s1 : State :=
    { s with
      user := some u
      tokenExpiryTime := some expiry
      localToken := some token
      localUser := some (codec.printUser u)
      localExpiry := some (codec.printNat expiry)
      cookieToken := some token
      cookieUser := some (codec.printUser u) }
  let n := notify s1
  let s3 : State := { n.1 with sessionToken := some token,
                               sessionUser := some (codec.printUser u) }
  (s3, n.2, broadcast "login" (some u))

/-- `logout()`: clears the in-memory session, all storage copies and both
cookies, notifies subscribers, and broadcasts a logout. -/
def logout (s : State) : State × List (Nat × Option User) × List Outbound :=
  let s1 : State :=
    { s with
      user := none
      tokenExpiryTime := none
      localToken := none
      localUser := none
      localExpiry := none
      sessionToken := none
      sessionUser := none
      cookieToken := none
      cookieUser := none }
  let n := notify s1
  (n.1, n.2, broadcast "logout" none)

/-- The truthiness-guarded expiry test of `isLoggedIn`:
`this.tokenExpiryTime && Date.now() > this.tokenExpiryTime`
(`null` and the number `0` are both falsy). -/
def expiryPassed (s : State) (now : Nat) : Bool :=
  match s.tokenExpiryTime with
  | none => false
  | some e => e ≠ 0 && now > e

/-- `isLoggedIn()`: false if no in-memory user; else, if the expiry
deadline is set, nonzero and in the past, performs a full `logout()` as a
side effect and returns false; else true. -/
def isLoggedIn (s : State) (now : Nat) :
    Bool × State × List (Nat × Option User) × List Outbound :=
  match s.user with
  | none => (false, s, [], [])
  | some _ =>
      if expiryPassed s now then
        (false, logout s)
      else
        (true, s, [], [])

/-- `getUser()`: pure read of the in-memory subject. -/
def getUser (s : State) : Option User :=
  s.user

/-- `getToken()`:
`localStorage.getItem('auth:token') || sessionStorage.getItem('auth:token')`.
Reads only the durable stores, never an in-memory copy. -/
def getToken (s : State) : Option String :=
  strOr s.localToken s.sessionToken

/-- `subscribe(listener)`: appends the callback to `this.listeners`. -/
def subscribe (ls : List Listener) (l : Listener) : List Listener :=
  ls ++ [l]

/-- The de-registration handle returned by `subscribe`:
`this.listeners = this.listeners.filter(l => l !== listener)`, a
reference-equality filter (every entry that is the same function object is
removed). -/
def unsubscribe (ls : List Listener) (cb : Nat) : List Listener :=
  ls.filter (fun l => l.id ≠ cb)

/-- A URL, viewed structurally: everything before the query string, plus
the query parameters as the ordered multi-map `URLSearchParams` exposes. -/
structure Url where
  base : String
  params : List (String × String)
deriving DecidableEq, Repr

/-- `URLSearchParams.delete(k)`: removes every entry with key `k`. -/
def deleteParam : List (String × String) → String → List (String × String)
  | [], _ => []
  | p :: rest, k =>
      if p.1 = k then deleteParam rest k else p :: deleteParam rest k

/-- `URLSearchParams.set(k, v)`: replaces the value of the first entry
with key `k`, removes every later entry with that key, or appends the
pair if the key is absent. -/
def setParam : List (String × String) → String → String → List (String × String)
  | [], k, v => [(k, v)]
  | (k', v') :: rest, k, v =>
      if k' = k then (k, v) :: deleteParam rest k
      else (k', v') :: setParam rest k v

/-- `URLSearchParams.get(k)`: value of the first entry with key `k`,
`null` if absent. -/
def getParam : List (String × String) → String → Option String
  | [], _ => none
  | p :: rest, k => if p.1 = k then some p.2 else getParam rest k

/-- `generateAuthUrl(targetUrl)`: requires `isLoggedIn()` (whose expiry
check may itself log the context out), throws `'User must be logged in to
generate auth URL'` if it fails; re-reads the token from durable storage
and the subject from memory, throws `'Invalid auth state'` if either is
falsy; otherwise appends `auth_token`, `auth_user` (serialized subject)
and `auth_timestamp` (current millisecond clock, decimal) to the target
URL's query and returns it.  The thrown error is the `Except.error`
message; the state and effects of the embedded `isLoggedIn()` call are
returned alongside. -/
def generateAuthUrl (cfg : Config) (codec : Codec) (s : State) (now : Nat)
    (target : Url) :
    Except String Url × State × List (Nat × Option User) × List Outbound :=
  let _ := cfg
  let r := isLoggedIn s now
  if r.1 then
    match getToken r.2.1, getUser r.2.1 with
    | some t, some u =>
        if t = "" then
          (Except.error "Invalid auth state", r.2)
        else
          let ps := setParam target.params "auth_token" t
          let ps := setParam ps "auth_user" (codec.printUser u)
          let ps := setParam ps "auth_timestamp" (codec.printNat now)
          (Except.ok { target with params := ps }, r.2)
    | _, _ =>
        (Except.error "Invalid auth state", r.2)
  else
    (Except.error "User must be logged in to generate auth URL", r.2)

/-- `processAuthFromUrl()`: reads `auth_token`, `auth_user`,
`auth_timestamp` from the current location's query; if all three are
truthy, parses the subject (a parse throw is caught: return false, no
mutation) and the timestamp, and if the payload is younger than the
5-minute replay window performs a full `login()` and strips the three
parameters from the visible URL, returning true; in every other case
returns false with no state change.  Result: (adopted?, state, visible
location, subscriber log, outbound traffic). -/
def processAuthFromUrl (cfg : Config) (codec : Codec) (s : State) (loc : Url)
    (now : Nat) :
    Bool × State × Url × List (Nat × Option User) × List Outbound :=
  match getParam loc.params "auth_token", getParam loc.params "auth_user",
        getParam loc.params "auth_timestamp" with
  | some token, some userStr, some timestamp =>
      if token = "" ∨ userStr = "" ∨ timestamp = "" then
        (false, s, loc, [], [])
      else
        match codec.parseUser userStr with
        | none => (false, s, loc, [], [])
        | some u =>
            match codec.parseNat timestamp with
            | none => (false, s, loc, [], [])
            | some authTime =>
                if (now : Int) - authTime < 5 * 60 * 1000 then
                  let r := login cfg codec s u token now
                  let ps := deleteParam loc.params "auth_token"
                  let ps := deleteParam ps "auth_user"
                  let ps := deleteParam ps "auth_timestamp"
                  (true, r.1, { loc with params := ps }, r.2)
                else
                  (false, s, loc, [], [])
  | _, _, _ => (false, s, loc, [], [])

/-- `shareAuthWithApp(targetOrigin, targetWindow)`: same authentication
and auth-state guards as `generateAuthUrl`, then posts the
`{type: 'AUTH_SHARE', auth: {token, user, timestamp}}` envelope to the
target window restricted to the target origin. -/
def shareAuthWithApp (cfg : Config) (codec : Codec) (s : State) (now : Nat)
    (targetOrigin : String) :
    Except String Unit × State × List (Nat × Option User) × List Outbound :=
  let _ := cfg
  let _ := codec
  let r := isLoggedIn s now
  if r.1 then
    match getToken r.2.1, getUser r.2.1 with
    | some t, some u =>
        if t = "" then
          (Except.error "Invalid auth state", r.2)
        else
          (Except.ok (), r.2.1, r.2.2.1,
           r.2.2.2 ++ [Outbound.shareMsg targetOrigin t u now])
    | _, _ =>
        (Except.error "Invalid auth state", r.2)
  else
    (Except.error "User must be logged in to share auth", r.2)

/-- `restoreSession()` of the full variant: reads the cookie copy first
and falls back to localStorage independently for the token and for the
subject string; if both resulting reads are truthy, parses the subject
(on a parse throw the `catch` performs a full `logout()`) and, when an
expiry string is stored, `parseInt`s it into the in-memory deadline
(`parseNat = none` models a NaN result, which every later truthiness
check treats exactly like the absent deadline). -/
def restoreSession (codec : Codec) (s : State) :
    State × List (Nat × Option User) × List Outbound :=
  let token := strOr s.cookieToken s.localToken
  let userStr := strOr s.cookieUser s.localUser
  if strFalsy token ∨ strFalsy userStr then
    (s, [], [])
  else
    match userStr with
    | none => (s, [], [])
    | some us =>
        match codec.parseUser us with
        | none => logout s
        | some u =>
            let s1 : State := { s with user := some u }
            if strFalsy s1.localExpiry then
              (s1, [], [])
            else
              match s1.localExpiry with
              | none => (s1, [], [])
              | some eStr =>
                  ({ s1 with tokenExpiryTime := codec.parseNat eStr }, [], [])

/-- An execution context fresh out of the constructor's field
initializers: no in-memory user, no deadline, no subscribers; the durable
stores hold whatever the environment pre-seeded. -/
def initState (localToken localUser localExpiry sessionToken sessionUser
    cookieToken cookieUser : Option String) : State :=
  { user := none
    tokenExpiryTime := none
    listeners := []
    localToken := localToken
    localUser := localUser
    localExpiry := localExpiry
    sessionToken := sessionToken
    sessionUser := sessionUser
    cookieToken := cookieToken
    cookieUser := cookieUser }

/-- `new AuthManager(config)` in a fresh context: field initializers then
`restoreSession()` (the message listener installed afterwards carries no
immediate effect). -/
def construct (codec : Codec) (s : State) :
    State × List (Nat × Option User) × List Outbound :=
  restoreSession codec s

/-- The `setupCrossOriginListener` message handler on receipt of an
`AUTH_SHARE` envelope `{token, user, timestamp}`: installed only when
`crossOriginEnabled`; accepts (a full local `login()`) only payloads
younger than the 5-minute replay window, otherwise does nothing. -/
def handleAuthShare (cfg : Config) (codec : Codec) (s : State) (now : Nat)
    (token : String) (u : User) (timestamp : Int) :
    State × List (Nat × Option User) × List Outbound :=
  if cfg.crossOriginEnabled then
    if (now : Int) - timestamp < 5 * 60 * 1000 then
      login cfg codec s u token now
    else
      (s, [], [])
  else
    (s, [], [])

/-- The `listenForExternalChanges` window-message handler: on
`AUTH_LOGIN` adopts the carried user and notifies, on `AUTH_LOGOUT`
clears the user and notifies, otherwise does nothing; it never posts. -/
def handleWindowSync (s : State) (type : String) (u : Option User) :
    State × List (Nat × Option User) × List Outbound :=
  if type = "AUTH_LOGIN" then
    let n := notify { s with user := u }
    (n.1, n.2, [])
  else if type = "AUTH_LOGOUT" then
    let n := notify { s with user := none }
    (n.1, n.2, [])
  else
    (s, [], [])

/-- The `listenForExternalChanges` BroadcastChannel handler: on `login`
adopts the carried user and notifies, on `logout` clears and notifies;
never posts. -/
def handleChannelSync (s : State) (type : String) (u : Option User) :
    State × List (Nat × Option User) × List Outbound :=
  if type = "login" then
    let n := notify { s with user := u }
    (n.1, n.2, [])
  else if type = "logout" then
    let n := notify { s with user := none }
    (n.1, n.2, [])
  else
    (s, [], [])

/-- The `listenForExternalChanges` storage-event handler: when the
`auth:user` key transitioned from a truthy old value to a falsy new one
(remote logout), clears the in-memory user and notifies; never posts. -/
def handleStorageEvent (s : State) (key : String)
    (newValue oldValue : Option String) :
    State × List (Nat × Option User) × List Outbound :=
  if key = "auth:user" ∧ strFalsy newValue ∧ ¬ strFalsy oldValue then
    let n := notify { s with user := none }
    (n.1, n.2, [])
  else
    (s, [], [])

/-! ## Concrete fixtures (used by witnesses and counterexamples) -/

/-- Splits a character list on the `|` separator. -/
def pipeSplit : List Char → List (List Char)
  | [] => [[]]
  | c :: rest =>
      match pipeSplit rest with
      | [] => [[c]]
      | g :: gs => if c = '|' then [] :: g :: gs else (c :: g) :: gs

/-- Accumulator loop of the decimal parser. -/
def parseDecGo : List Char → Nat → Option Nat
  | [], acc => some acc
  | c :: rest, acc =>
      if '0' ≤ c ∧ c ≤ '9' then parseDecGo rest (acc * 10 + (c.toNat - 48))
      else none

/-- A decimal string parser (empty string is not a number). -/
def parseDec (s : String) : Option Nat :=
  match s.data with
  | [] => none
  | cs => parseDecGo cs 0

/-- A concrete instantiation of the external codec: an injective
field-concatenation stand-in for `JSON.stringify`/`JSON.parse` (total on
subjects whose fields avoid the separator) and a decimal codec for
timestamps. -/
def sampleCodec : Codec where
  printUser := fun u => u.id ++ "|" ++ u.name ++ "|" ++ u.email ++ "|" ++ u.role.getD ""
  parseUser := fun s =>
    match (pipeSplit s.data).map String.mk with
    | [i, n, e, r] =>
        some { id := i, name := n, email := e
               role := if r = "" then none else some r }
    | _ => none
  printNat := fun n => toString n
  parseNat := parseDec

/-- A concrete subject. -/
def sampleUser : User :=
  { id := "u1", name := "Alice", email := "alice@example.com", role := none }

/-- A default configuration: cross-origin enabled, 24-hour lifetime. -/
def sampleConfig : Config :=
  { crossOriginEnabled := true, tokenExpiry := 24 * 60 * 60 * 1000 }

/-- A fresh context over empty storage. -/
def emptyState : State :=
  initState none none none none none none none

/-! ## Helper lemmas -/

/-- The invocation log of one `forEach` pass over a snapshot is exactly
one entry per snapshot element, in order, whatever the callbacks do to
the live `listeners` field. -/
theorem notifyGo_log (user : Option User) :
    ∀ (snapshot field : List Listener),
      (notifyGo user field snapshot).2 = snapshot.map (fun l => (l.id, user)) := by
  intro snapshot
  induction snapshot with
  | nil => intro field; rfl
  | cons l rest ih =>
      intro field
      simp [notifyGo, ih]

/-- `notify` only rewrites the `listeners` field of the state. -/
theorem notify_fst (s : State) :
    (notify s).1 = { s with listeners := (notifyGo s.user s.listeners s.listeners).1 } :=
  rfl

/-- The log of `notify` covers the pre-call listener list in order. -/
theorem notify_log (s : State) :
    (notify s).2 = s.listeners.map (fun l => (l.id, s.user)) := by
  simp [notify, notifyGo_log]

/-- `URLSearchParams.set` then `get` on the same key yields the value. -/
theorem getParam_setParam_self (ps : List (String × String)) (k v : String) :
    getParam (setParam ps k v) k = some v := by
  induction ps with
  | nil => simp [setParam, getParam]
  | cons p rest ih =>
      by_cases h : p.1 = k
      · simp [setParam, h, getParam]
      · simp [setParam, h, getParam, ih]

/-- Deleting one key does not change lookup of a different key. -/
theorem getParam_deleteParam_ne (ps : List (String × String)) (k k' : String)
    (h : k' ≠ k) :
    getParam (deleteParam ps k) k' = getParam ps k' := by
  induction ps with
  | nil => rfl
  | cons p rest ih =>
      by_cases hp : p.1 = k
      · have hne : p.1 ≠ k' := fun hc => h (hc ▸ hp)
        rw [deleteParam, if_pos hp, ih, getParam, if_neg hne]
      · by_cases hk' : p.1 = k'
        · rw [deleteParam, if_neg hp, getParam, if_pos hk', getParam, if_pos hk']
        · rw [deleteParam, if_neg hp, getParam, if_neg hk', getParam, if_neg hk', ih]

/-- `URLSearchParams.set` leaves other keys' `get` results unchanged. -/
theorem getParam_setParam_other (ps : List (String × String)) (k v k' : String)
    (h : k' ≠ k) : getParam (setParam ps k v) k' = getParam ps k' := by
  induction ps with
  | nil => simp [setParam, getParam, Ne.symm h]
  | cons p rest ih =>
      by_cases hp : p.1 = k
      · have hne : p.1 ≠ k' := fun hc => h (hc ▸ hp)
        rw [setParam, if_pos hp, getParam, if_neg (fun hc : k = k' => h hc.symm),
          getParam_deleteParam_ne rest k k' h, getParam, if_neg hne]
      · by_cases hk' : p.1 = k'
        · rw [setParam, if_neg hp, getParam, if_pos hk', getParam, if_pos hk']
        · rw [setParam, if_neg hp, getParam, if_neg hk', getParam, if_neg hk', ih]

/-! ## Claim theorems -/

/-- C7: `login` invokes each registered subscriber exactly once with the
new subject, in registration order (the invocation log is exactly one
entry per registered listener, in list order, and `subscribe` appends, so
list order is registration order); this holds whatever de-registrations
the callbacks perform mid-pass, so a subscriber unsubscribing itself or
another does not skip or duplicate any delivery of that pass. -/
theorem login_notifies_each_subscriber_once_in_order
    (cfg : Config) (codec : Codec) (s : State) (u : User) (tok : String)
    (now : Nat) :
    (login cfg codec s u tok now).2.1 =
      s.listeners.map (fun l => (l.id, some u)) := by
  simp [login, notify, notifyGo_log]

/-- C10: the de-registration handle removes every registration that is
reference-equal to its callback (subscribing the same function twice and
invoking the handle removes both copies, together with any pre-existing
one), and running a handle a second time is a no-op. -/
theorem unsubscribe_removes_all_copies_and_is_idempotent
    (ls : List Listener) (l : Listener) :
    (∀ l' ∈ unsubscribe (subscribe (subscribe ls l) l) l.id, l'.id ≠ l.id) ∧
    unsubscribe (subscribe (subscribe ls l) l) l.id = unsubscribe ls l.id ∧
    unsubscribe (unsubscribe ls l.id) l.id = unsubscribe ls l.id := by
  refine ⟨?_, ?_, ?_⟩
  · intro l' h
    have := List.mem_filter.mp h
    simpa using this.2
  · simp [unsubscribe, subscribe, List.filter_append]
  · simp [unsubscribe, List.filter_filter]

/-- C1: with a configured lifetime `L ≥ 1`, `login` at `t0` makes
`isLoggedIn` true at `t0+L-1` and false at `t0+L+1`; the expired read has
the side effect of a full logout, clearing the in-memory session and
every persisted copy, so a subsequent `getUser` is absent. -/
theorem login_expiry_lifecycle (cfg : Config) (codec : Codec) (s : State)
    (u : User) (tok : String) (t0 : Nat) (hL : 1 ≤ cfg.tokenExpiry) :
    (isLoggedIn (login cfg codec s u tok t0).1 (t0 + cfg.tokenExpiry - 1)).1
      = true ∧
    (isLoggedIn (login cfg codec s u tok t0).1 (t0 + cfg.tokenExpiry + 1)).1
      = false ∧
    getUser (isLoggedIn (login cfg codec s u tok t0).1
      (t0 + cfg.tokenExpiry + 1)).2.1 = none ∧
    ((isLoggedIn (login cfg codec s u tok t0).1
        (t0 + cfg.tokenExpiry + 1)).2.1.tokenExpiryTime = none ∧
     (isLoggedIn (login cfg codec s u tok t0).1
        (t0 + cfg.tokenExpiry + 1)).2.1.localToken = none ∧
     (isLoggedIn (login cfg codec s u tok t0).1
        (t0 + cfg.tokenExpiry + 1)).2.1.localUser = none ∧
     (isLoggedIn (login cfg codec s u tok t0).1
        (t0 + cfg.tokenExpiry + 1)).2.1.localExpiry = none ∧
     (isLoggedIn (login cfg codec s u tok t0).1
        (t0 + cfg.tokenExpiry + 1)).2.1.sessionToken = none ∧
     (isLoggedIn (login cfg codec s u tok t0).1
        (t0 + cfg.tokenExpiry + 1)).2.1.sessionUser = none ∧
     (isLoggedIn (login cfg codec s u tok t0).1
        (t0 + cfg.tokenExpiry + 1)).2.1.cookieToken = none ∧
     (isLoggedIn (login cfg codec s u tok t0).1
        (t0 + cfg.tokenExpiry + 1)).2.1.cookieUser = none) := by
  have hne : t0 + cfg.tokenExpiry ≠ 0 := by omega
  have hlt : ¬ (t0 + cfg.tokenExpiry - 1 > t0 + cfg.tokenExpiry) := by omega
  have hgt : t0 + cfg.tokenExpiry + 1 > t0 + cfg.tokenExpiry := by omega
  simp [login, notify, isLoggedIn, expiryPassed, logout, getUser, hne, hlt, hgt]

/-- Closed witness for C1 at a concrete state, clock and configuration. -/
theorem login_expiry_lifecycle_witness :
    1 ≤ sampleConfig.tokenExpiry ∧
    ((isLoggedIn (login sampleConfig sampleCodec emptyState sampleUser "tok" 50).1
        (50 + sampleConfig.tokenExpiry - 1)).1 = true ∧
     (isLoggedIn (login sampleConfig sampleCodec emptyState sampleUser "tok" 50).1
        (50 + sampleConfig.tokenExpiry + 1)).1 = false) := by
  refine ⟨by decide, ?_, ?_⟩
  · exact (login_expiry_lifecycle sampleConfig sampleCodec emptyState sampleUser
      "tok" 50 (by decide)).1
  · exact (login_expiry_lifecycle sampleConfig sampleCodec emptyState sampleUser
      "tok" 50 (by decide)).2.1

/-- C2: constructing a manager over a durable store whose token is
present but whose serialized subject does not parse never propagates the
parse failure (the embedded `catch` branch is taken) and leaves the
context logged out: the in-memory session and every persisted copy are
cleared and `isLoggedIn` is false at every instant. -/
theorem construct_on_corrupted_storage_forces_logout (codec : Codec)
    (lt lu le st su ct cu : Option String) (us : String)
    (htok : strFalsy (strOr ct lt) = false)
    (hus : strOr cu lu = some us) (husne : us ≠ "")
    (hbad : codec.parseUser us = none) :
    (construct codec (initState lt lu le st su ct cu)).1.user = none ∧
    (construct codec (initState lt lu le st su ct cu)).1.tokenExpiryTime = none ∧
    (construct codec (initState lt lu le st su ct cu)).1.localToken = none ∧
    (construct codec (initState lt lu le st su ct cu)).1.localUser = none ∧
    (construct codec (initState lt lu le st su ct cu)).1.localExpiry = none ∧
    (construct codec (initState lt lu le st su ct cu)).1.sessionToken = none ∧
    (construct codec (initState lt lu le st su ct cu)).1.sessionUser = none ∧
    (construct codec (initState lt lu le st su ct cu)).1.cookieToken = none ∧
    (construct codec (initState lt lu le st su ct cu)).1.cookieUser = none ∧
    (∀ now, (isLoggedIn (construct codec (initState lt lu le st su ct cu)).1 now).1
      = false) ∧
    getUser (construct codec (initState lt lu le st su ct cu)).1 = none := by
  have husf : strFalsy (strOr cu lu) = false := by
    rw [hus]
    simpa [strFalsy] using husne
  have hussf : strFalsy (some us) = false := by
    simpa [strFalsy] using husne
  simp [construct, restoreSession, initState, htok, husf, hussf, hus, hbad,
    logout, notify, notifyGo, isLoggedIn, getUser]

/-- Closed witness for C2: local storage pre-seeded with a token and an
unparsable subject string. -/
theorem construct_on_corrupted_storage_forces_logout_witness :
    strFalsy (strOr none (some "tok")) = false ∧
    strOr none (some "not json") = some "not json" ∧
    sampleCodec.parseUser "not json" = none ∧
    ((construct sampleCodec
        (initState (some "tok") (some "not json") none none none none none)).1.user
      = none ∧
     (isLoggedIn (construct sampleCodec
        (initState (some "tok") (some "not json") none none none none none)).1 0).1
      = false) := by
  refine ⟨by decide, by decide, by decide, ?_, ?_⟩
  · exact (construct_on_corrupted_storage_forces_logout sampleCodec
      (some "tok") (some "not json") none none none none none "not json"
      (by decide) (by decide) (by decide) (by decide)).1
  · exact ((construct_on_corrupted_storage_forces_logout sampleCodec
      (some "tok") (some "not json") none none none none none "not json"
      (by decide) (by decide) (by decide) (by decide)).2.2.2.2.2.2.2.2.2.1) 0

/-- C8: with an active, non-expired session, `generateAuthUrl` returns
the target URL with `auth_token`, serialized `auth_user` and
`auth_timestamp` appended, and mutates nothing (state returned unchanged,
no subscriber firing, no outbound traffic); without an active session it
surfaces the not-authenticated rejection as a thrown error. -/
theorem generateAuthUrl_appends_params_or_rejects
    (cfg : Config) (codec : Codec) (s : State) (now : Nat) (target : Url)
    (u : User) (t : String) :
    (s.user = some u → expiryPassed s now = false → getToken s = some t →
      t ≠ "" →
      (generateAuthUrl cfg codec s now target).1 =
        Except.ok { base := target.base,
                    params := setParam (setParam (setParam target.params
                      "auth_token" t) "auth_user" (codec.printUser u))
                      "auth_timestamp" (codec.printNat now) } ∧
      (generateAuthUrl cfg codec s now target).2.1 = s ∧
      (generateAuthUrl cfg codec s now target).2.2.1 = [] ∧
      (generateAuthUrl cfg codec s now target).2.2.2 = []) ∧
    ((isLoggedIn s now).1 = false →
      (generateAuthUrl cfg codec s now target).1 =
        Except.error "User must be logged in to generate auth URL") := by
  constructor
  · intro hu hexp htok htne
    have hr : isLoggedIn s now = (true, s, [], []) := by
      unfold isLoggedIn
      rw [hu, hexp]
      simp
    simp [generateAuthUrl, hr, htok, getUser, hu, htne]
  · intro hfail
    have : (isLoggedIn s now).1 = false := hfail
    simp [generateAuthUrl, this]

/-- A concrete context holding an active session (in memory, in both
durable stores and in the cookies), with a deadline far in the future. -/
def activeState : State :=
  { user := some sampleUser
    tokenExpiryTime := some 1000000
    listeners := []
    localToken := some "tok"
    localUser := some (sampleCodec.printUser sampleUser)
    localExpiry := some "1000000"
    sessionToken := some "tok"
    sessionUser := some (sampleCodec.printUser sampleUser)
    cookieToken := some "tok"
    cookieUser := some (sampleCodec.printUser sampleUser) }

/-- Closed witness for C8: the success path at `activeState` and the
rejection path at the logged-out `emptyState`. -/
theorem generateAuthUrl_appends_params_or_rejects_witness :
    (activeState.user = some sampleUser ∧
     expiryPassed activeState 500 = false ∧
     getToken activeState = some "tok" ∧
     (generateAuthUrl sampleConfig sampleCodec activeState 500
        ⟨"https://other.example/page", []⟩).1 =
       Except.ok { base := "https://other.example/page",
                   params := setParam (setParam (setParam []
                     "auth_token" "tok") "auth_user"
                     (sampleCodec.printUser sampleUser))
                     "auth_timestamp" (sampleCodec.printNat 500) }) ∧
    ((isLoggedIn emptyState 0).1 = false ∧
     (generateAuthUrl sampleConfig sampleCodec emptyState 0
        ⟨"https://other.example/page", []⟩).1 =
       Except.error "User must be logged in to generate auth URL") := by
  constructor
  · refine ⟨by decide, by decide, by decide, ?_⟩
    exact ((generateAuthUrl_appends_params_or_rejects sampleConfig sampleCodec
      activeState 500 ⟨"https://other.example/page", []⟩ sampleUser "tok").1
      (by decide) (by decide) (by decide) (by decide)).1
  · refine ⟨by decide, ?_⟩
    exact (generateAuthUrl_appends_params_or_rejects sampleConfig sampleCodec
      emptyState 0 ⟨"https://other.example/page", []⟩ sampleUser "tok").2
      (by decide)

/-- C9: `getToken` reads only the durable stores, so a context whose
in-memory subject is present and non-expired but whose durable token
copies are gone reports `isLoggedIn` true while `generateAuthUrl` and
`shareAuthWithApp` both throw `'Invalid auth state'`. -/
theorem getToken_durable_only_invalid_auth_state
    (cfg : Config) (codec : Codec) (s : State) (u : User) (now : Nat)
    (target : Url) (origin : String)
    (hu : s.user = some u) (hexp : expiryPassed s now = false)
    (hlt : s.localToken = none) (hst : s.sessionToken = none) :
    getToken s = none ∧
    (isLoggedIn s now).1 = true ∧
    (generateAuthUrl cfg codec s now target).1 =
      Except.error "Invalid auth state" ∧
    (shareAuthWithApp cfg codec s now origin).1 =
      Except.error "Invalid auth state" := by
  have htok : getToken s = none := by
    simp [getToken, strOr, hlt, hst, strFalsy]
  have hr : isLoggedIn s now = (true, s, [], []) := by
    unfold isLoggedIn
    rw [hu, hexp]
    simp
  refine ⟨htok, by simp [hr], ?_, ?_⟩
  · simp [generateAuthUrl, hr, htok]
  · simp [shareAuthWithApp, hr, htok]

/-- A context logged in in memory whose durable token copies were cleared
externally. -/
def tokenlessState : State :=
  { activeState with localToken := none, sessionToken := none }

/-- Closed witness for C9 at `tokenlessState`. -/
theorem getToken_durable_only_invalid_auth_state_witness :
    tokenlessState.user = some sampleUser ∧
    ((isLoggedIn tokenlessState 500).1 = true ∧
     (generateAuthUrl sampleConfig sampleCodec tokenlessState 500
        ⟨"https://other.example/page", []⟩).1 =
       Except.error "Invalid auth state" ∧
     (shareAuthWithApp sampleConfig sampleCodec tokenlessState 500
        "https://other.example").1 = Except.error "Invalid auth state") := by
  refine ⟨by decide, ?_⟩
  exact (getToken_durable_only_invalid_auth_state sampleConfig sampleCodec
    tokenlessState sampleUser 500 ⟨"https://other.example/page", []⟩
    "https://other.example" (by decide) (by decide) (by decide) (by decide)).2

/-- C5: a hand-off payload whose timestamp is older than the 5-minute
replay window is rejected on both receive paths with no mutation at all:
`processAuthFromUrl` returns false leaving the state, the visible URL,
the subscribers and the outbound channels untouched, and the
`AUTH_SHARE` message handler leaves the state untouched and emits
nothing. -/
theorem replay_window_rejects_stale_payloads
    (cfg : Config) (codec : Codec) (s : State) (loc : Url) (now : Nat)
    (tokv usv tsStr shTok : String) (a : Nat) (shU : User) (shTs : Int)
    (h1 : getParam loc.params "auth_token" = some tokv) (h1n : tokv ≠ "")
    (h2 : getParam loc.params "auth_user" = some usv) (h2n : usv ≠ "")
    (h3 : getParam loc.params "auth_timestamp" = some tsStr) (h3n : tsStr ≠ "")
    (h4 : codec.parseNat tsStr = some a)
    (hold : (now : Int) - a > 5 * 60 * 1000)
    (holdSh : (now : Int) - shTs > 5 * 60 * 1000) :
    processAuthFromUrl cfg codec s loc now = (false, s, loc, [], []) ∧
    handleAuthShare cfg codec s now shTok shU shTs = (s, [], []) := by
  constructor
  · have hg : ¬ (tokv = "" ∨ usv = "" ∨ tsStr = "") := by
      simp [h1n, h2n, h3n]
    have hstale : ¬ ((now : Int) - a < 5 * 60 * 1000) := by omega
    unfold processAuthFromUrl
    simp only [h1, h2, h3]
    rw [if_neg hg]
    cases hp : codec.parseUser usv with
    | none => simp only [hp]
    | some u =>
        simp only [hp, h4]
        rw [if_neg hstale]
  · have hstale : ¬ ((now : Int) - shTs < 300000) := by omega
    simp [handleAuthShare, hstale]

/-- A receiving location carrying a stale hand-off payload. -/
def staleLoc : Url :=
  { base := "https://recv.example/page"
    params := [("auth_token", "tok"), ("auth_user", "u1|Alice|alice@example.com|"),
               ("auth_timestamp", "5")] }

/-- Closed witness for C5: a payload stamped 5 against a clock of
1000000 on both receive paths. -/
theorem replay_window_rejects_stale_payloads_witness :
    getParam staleLoc.params "auth_timestamp" = some "5" ∧
    sampleCodec.parseNat "5" = some 5 ∧
    ((1000000 : Int) - 5 > 5 * 60 * 1000) ∧
    (processAuthFromUrl sampleConfig sampleCodec emptyState staleLoc 1000000 =
      (false, emptyState, staleLoc, [], []) ∧
     handleAuthShare sampleConfig sampleCodec emptyState 1000000 "tok"
       sampleUser 5 = (emptyState, [], [])) := by
  refine ⟨by decide, by decide, by decide, ?_⟩
  exact replay_window_rejects_stale_payloads sampleConfig sampleCodec emptyState
    staleLoc 1000000 "tok" "u1|Alice|alice@example.com|" "5" "tok" 5 sampleUser 5
    (by decide) (by decide) (by decide) (by decide) (by decide) (by decide)
    (by decide) (by decide) (by decide)

/-- C6: a session with subject `u` and token `tok`, active and
non-expired at encode time, survives the URL hand-off: the URL produced
by `generateAuthUrl` — adopted as the location of an arbitrary receiving
context and decoded within the replay window — makes
`processAuthFromUrl` return true and leaves the receiving context with
`getUser` equal to `u` and `getToken` equal to `tok`.  The serialization
round-trips of the external JSON/decimal codecs are hypotheses. -/
theorem handoff_url_roundtrip
    (cfg : Config) (codec : Codec) (s f : State) (u : User) (tok : String)
    (t1 t2 : Nat) (target : Url) (genUrl : Url)
    (hu : s.user = some u) (hexp : expiryPassed s t1 = false)
    (htok : getToken s = some tok) (htokne : tok ≠ "")
    (hpu : codec.parseUser (codec.printUser u) = some u)
    (hpune : codec.printUser u ≠ "")
    (hpn : codec.parseNat (codec.printNat t1) = some t1)
    (hpnne : codec.printNat t1 ≠ "")
    (hok : (generateAuthUrl cfg codec s t1 target).1 = Except.ok genUrl)
    (hfresh : (t2 : Int) - t1 < 5 * 60 * 1000) :
    (processAuthFromUrl cfg codec f genUrl t2).1 = true ∧
    getUser (processAuthFromUrl cfg codec f genUrl t2).2.1 = some u ∧
    getToken (processAuthFromUrl cfg codec f genUrl t2).2.1 = some tok := by
  have hr : isLoggedIn s t1 = (true, s, [], []) := by
    unfold isLoggedIn
    rw [hu, hexp]
    simp
  have hgen : (generateAuthUrl cfg codec s t1 target).1 =
      Except.ok { base := target.base,
                  params := setParam (setParam (setParam target.params
                    "auth_token" tok) "auth_user" (codec.printUser u))
                    "auth_timestamp" (codec.printNat t1) } := by
    simp [generateAuthUrl, hr, htok, getUser, hu, htokne]
  have hurl : genUrl =
      { base := target.base,
        params := setParam (setParam (setParam target.params
          "auth_token" tok) "auth_user" (codec.printUser u))
          "auth_timestamp" (codec.printNat t1) } := by
    have := hok.symm.trans hgen
    exact Except.ok.inj this
  have g1 : getParam genUrl.params "auth_token" = some tok := by
    rw [hurl]
    rw [getParam_setParam_other _ _ _ _ (by decide),
      getParam_setParam_other _ _ _ _ (by decide), getParam_setParam_self]
  have g2 : getParam genUrl.params "auth_user" = some (codec.printUser u) := by
    rw [hurl]
    rw [getParam_setParam_other _ _ _ _ (by decide), getParam_setParam_self]
  have g3 : getParam genUrl.params "auth_timestamp" = some (codec.printNat t1) := by
    rw [hurl]
    rw [getParam_setParam_self]
  have hg : ¬ (tok = "" ∨ codec.printUser u = "" ∨ codec.printNat t1 = "") := by
    simp [htokne, hpune, hpnne]
  have hres : processAuthFromUrl cfg codec f genUrl t2 =
      (true, (login cfg codec f u tok t2).1,
       { base := genUrl.base,
         params := deleteParam (deleteParam (deleteParam genUrl.params
           "auth_token") "auth_user") "auth_timestamp" },
       (login cfg codec f u tok t2).2) := by
    unfold processAuthFromUrl
    simp only [g1, g2, g3]
    rw [if_neg hg]
    simp only [hpu, hpn]
    rw [if_pos hfresh]
  refine ⟨by rw [hres], ?_, ?_⟩
  · rw [hres]
    simp [login, notify, getUser]
  · rw [hres]
    simp [login, notify, getToken, strOr, strFalsy, htokne]

/-- The URL `generateAuthUrl` produces from `activeState` at time 500
for an empty-query target. -/
def handoffUrl : Url :=
  { base := "https://other.example/page"
    params := [("auth_token", "tok"),
               ("auth_user", "u1|Alice|alice@example.com|"),
               ("auth_timestamp", "500")] }

/-- Closed witness for C6: encode from `activeState` at time 500, decode
in a fresh empty context at time 600. -/
theorem handoff_url_roundtrip_witness :
    (generateAuthUrl sampleConfig sampleCodec activeState 500
       ⟨"https://other.example/page", []⟩).1 = Except.ok handoffUrl ∧
    ((processAuthFromUrl sampleConfig sampleCodec emptyState handoffUrl 600).1
       = true ∧
     getUser (processAuthFromUrl sampleConfig sampleCodec emptyState
       handoffUrl 600).2.1 = some sampleUser ∧
     getToken (processAuthFromUrl sampleConfig sampleCodec emptyState
       handoffUrl 600).2.1 = some "tok") := by
  refine ⟨rfl, ?_⟩
  exact handoff_url_roundtrip sampleConfig sampleCodec activeState emptyState
    sampleUser "tok" 500 600 ⟨"https://other.example/page", []⟩ handoffUrl
    (by decide) (by decide) (by decide) (by decide) (by decide) (by decide)
    (by decide) (by decide) rfl (by decide)

/-- A durable-store state in which no single source holds a complete
pair: the cookie copy has only a token, localStorage only a serialized
subject (plus no token anywhere else). -/
def mixedState : State :=
  initState none (some "u1|Alice|alice@example.com|") none none none
    (some "ct") none

/-- C3 counterexample: at `mixedState` neither candidate source holds a
non-empty token/subject pair — the cookie copy lacks the subject, the
durable copy lacks the token — yet construction adopts a session, pairing
the cookie token with the locally stored subject.  This refutes "adopts
the first source whose token/subject pair is non-empty as a pair" and
"never combines the token from one source with the subject from the
other". -/
theorem restore_combines_sources_counterexample :
    mixedState.cookieToken = some "ct" ∧ mixedState.cookieUser = none ∧
    mixedState.localToken = none ∧
    mixedState.localUser = some "u1|Alice|alice@example.com|" ∧
    (construct sampleCodec mixedState).1.user = some sampleUser := by
  refine ⟨rfl, rfl, rfl, rfl, ?_⟩
  decide

/-- C3 (amended): restoration reads the cookie copy first and the
durable copy second independently for each field — token and serialized
subject fall back separately — and adopts a session exactly when both
resulting reads are truthy and the subject parses (so the token of one
source may be paired with the subject of the other); when either
per-field fallback is falsy the state is left untouched. -/
theorem restore_per_field_fallback (codec : Codec) :
    (∀ (s : State) (t us : String) (u : User),
      strOr s.cookieToken s.localToken = some t → t ≠ "" →
      strOr s.cookieUser s.localUser = some us → us ≠ "" →
      codec.parseUser us = some u →
      (construct codec s).1.user = some u) ∧
    (∀ s : State,
      strFalsy (strOr s.cookieToken s.localToken) = true ∨
      strFalsy (strOr s.cookieUser s.localUser) = true →
      (construct codec s).1 = s) := by
  constructor
  · intro s t us u ht htne hus husne hp
    have htf : strFalsy (strOr s.cookieToken s.localToken) = false := by
      rw [ht]
      simpa [strFalsy] using htne
    have husf : strFalsy (strOr s.cookieUser s.localUser) = false := by
      rw [hus]
      simpa [strFalsy] using husne
    have hussf : strFalsy (some us) = false := by
      simpa [strFalsy] using husne
    unfold construct restoreSession
    simp only [htf, husf, hussf, hus, hp, Bool.false_eq_true, or_self, if_false]
    split
    · rfl
    · split <;> rfl
  · intro s h
    unfold construct restoreSession
    rcases h with h | h <;> simp [h]

/-- Closed witness for C3's amended theorem: the adopting branch at
`mixedState`, the untouched branch at `emptyState`. -/
theorem restore_per_field_fallback_witness :
    strOr mixedState.cookieToken mixedState.localToken = some "ct" ∧
    strOr mixedState.cookieUser mixedState.localUser =
      some "u1|Alice|alice@example.com|" ∧
    sampleCodec.parseUser "u1|Alice|alice@example.com|" = some sampleUser ∧
    (construct sampleCodec mixedState).1.user = some sampleUser ∧
    (construct sampleCodec emptyState).1 = emptyState := by
  refine ⟨by decide, by decide, by decide, ?_, ?_⟩
  · exact (restore_per_field_fallback sampleCodec).1 mixedState "ct"
      "u1|Alice|alice@example.com|" sampleUser (by decide) (by decide)
      (by decide) (by decide) (by decide)
  · exact (restore_per_field_fallback sampleCodec).2 emptyState (by decide)

/-- C4 counterexample: an inbound `AUTH_SHARE` hand-off envelope, received
within the replay window, performs a full `login()` and therefore emits
outbound broadcasts (a window `AUTH_LOGIN` post and a channel `login`
post) — refuting "never emits an outbound broadcast on any channel". -/
theorem inbound_share_rebroadcasts_counterexample :
    (handleAuthShare sampleConfig sampleCodec emptyState 1000 "tok"
      sampleUser 900).2.2 =
      [Outbound.windowMsg "AUTH_LOGIN" (some sampleUser),
       Outbound.channelMsg "login" (some sampleUser)] := by
  decide

/-- C4 (amended): inbound notifications on the broadcast-style channels
(window `AUTH_LOGIN`/`AUTH_LOGOUT` messages, channel `login`/`logout`
posts, storage-change events) apply the remote state and re-fire local
subscribers without emitting anything outbound; the `AUTH_SHARE` hand-off
receive path alone re-enters through the full `login()` and so does
re-broadcast — but only login-sync envelopes, never another `AUTH_SHARE`,
so no channel feeds itself. -/
theorem inbound_apply_without_rebroadcast :
    (∀ (s : State) (u : Option User),
      (handleWindowSync s "AUTH_LOGIN" u).1.user = u ∧
      (handleWindowSync s "AUTH_LOGIN" u).2.1 =
        s.listeners.map (fun l => (l.id, u)) ∧
      (handleWindowSync s "AUTH_LOGIN" u).2.2 = []) ∧
    (∀ (s : State) (u : Option User),
      (handleWindowSync s "AUTH_LOGOUT" u).1.user = none ∧
      (handleWindowSync s "AUTH_LOGOUT" u).2.1 =
        s.listeners.map (fun l => (l.id, (none : Option User))) ∧
      (handleWindowSync s "AUTH_LOGOUT" u).2.2 = []) ∧
    (∀ (s : State) (type : String) (u : Option User),
      (handleWindowSync s type u).2.2 = [] ∧
      (handleChannelSync s type u).2.2 = []) ∧
    (∀ (s : State) (u : Option User),
      (handleChannelSync s "login" u).1.user = u ∧
      (handleChannelSync s "logout" u).1.user = none) ∧
    (∀ (s : State) (key : String) (nv ov : Option String),
      (handleStorageEvent s key nv ov).2.2 = []) ∧
    (∀ (s : State) (ov : Option String),
      (handleStorageEvent s "auth:user" none ov).1.user =
        (if strFalsy ov then s.user else none)) ∧
    (∀ (cfg : Config) (codec : Codec) (s : State) (now : Nat) (tok : String)
        (u : User) (ts : Int),
      (handleAuthShare cfg codec s now tok u ts).2.2 = [] ∨
      (handleAuthShare cfg codec s now tok u ts).2.2 =
        [Outbound.windowMsg "AUTH_LOGIN" (some u),
         Outbound.channelMsg "login" (some u)]) := by
  refine ⟨?_, ?_, ?_, ?_, ?_, ?_, ?_⟩
  · intro s u
    refine ⟨rfl, ?_, rfl⟩
    simp [handleWindowSync, notify, notifyGo_log]
  · intro s u
    refine ⟨rfl, ?_, rfl⟩
    simp [handleWindowSync, notify, notifyGo_log]
  · intro s type u
    constructor
    · by_cases h1 : type = "AUTH_LOGIN"
      · simp [handleWindowSync, h1]
      · by_cases h2 : type = "AUTH_LOGOUT" <;> simp [handleWindowSync, h1, h2]
    · by_cases h1 : type = "login"
      · simp [handleChannelSync, h1]
      · by_cases h2 : type = "logout" <;> simp [handleChannelSync, h1, h2]
  · intro s u
    exact ⟨rfl, rfl⟩
  · intro s key nv ov
    unfold handleStorageEvent
    split <;> rfl
  · intro s ov
    unfold handleStorageEvent
    cases ov with
    | none => simp [strFalsy]
    | some v =>
        by_cases hv : v = ""
        · simp [strFalsy, hv]
        · simp [strFalsy, hv, notify]
  · intro cfg codec s now tok u ts
    unfold handleAuthShare
    by_cases hco : cfg.crossOriginEnabled
    · by_cases hfr : (now : Int) - ts < 300000
      · right
        have hup : ("AUTH_" ++ strUpper "login") = "AUTH_LOGIN" := rfl
        simp [hco, hfr, login, broadcast, hup]
      · left
        simp [hco, hfr]
    · left
      simp [hco]

end AuthSdk
